/-
Verification of the FlexiDraw Review Service (src/review_service/main.py).

The service is shallowly embedded: Python bytes become `List Nat`, the
FastAPI JSON responses become an explicit `HttpResponse` structure, the
OpenAI chat-completion collaborator becomes a function parameter returning
`Except String ChatResp` (an `Except.error` models an exception raised by
the call), and reading the upload becomes an `Except String (List Nat)`
parameter for the same reason.  The PIL image codec used by `ensure_png`
is an external library, so it is modelled from the spec (see the doc
comments on `decodeImage` / `encodePNG` / `toRGBA`).
-/
import Mathlib

namespace ReviewService

/-- A byte sequence (Python `bytes`); values are byte-sized naturals. -/
abbrev ByteSeq := List Nat

/-- The JSON body of an HTTP response, one constructor per body shape the
service produces. -/
inductive Body where
  | htmlBody (html : String)
  | errorBody (msg : String)
  | pingBody (ok : Bool) (model : String) (hasApiKey : Bool)
  | healthBody (ok : Bool)
  deriving DecidableEq, Repr

/-- An HTTP response: status code plus JSON body. -/
structure HttpResponse where
  status : Nat
  body : Body
  deriving DecidableEq, Repr

/-- The OpenAI client object (`client = OpenAI(api_key=...)`, main.py:25);
only its existence matters to the handler. -/
structure OpenAIClient where
  apiKey : String
  deriving DecidableEq, Repr

/-- The message object inside a candidate of the collaborator's reply;
`content` is optional (main.py:80 guards it). -/
structure ChatMessageOut where
  content : Option String
  deriving DecidableEq, Repr

/-- One candidate completion (`resp.choices[i]`); its `message` is guarded
against `None` at main.py:80. -/
structure Choice where
  message : Option ChatMessageOut
  deriving DecidableEq, Repr

/-- The collaborator's reply (`resp`): a list of candidate completions. -/
structure ChatResp where
  choices : List Choice
  deriving DecidableEq, Repr

/-- One part of the user message content (main.py:65-71): a text segment or
an image-URL segment. -/
inductive ContentPart where
  | text (t : String)
  | imageUrl (url : String)
  deriving DecidableEq, Repr

/-- A role-tagged chat message in the outbound request (main.py:75). -/
structure ChatMessage where
  role : String
  content : List ContentPart
  deriving DecidableEq, Repr

/-- The outbound request to the collaborator (main.py:73-77). -/
structure ChatRequest where
  model : String
  messages : List ChatMessage
  temperature : ℚ
  deriving DecidableEq, Repr

/-! ### Base64 encoding (main.py:62, `base64.b64encode`) -/

/-- The standard base64 alphabet. -/
def base64Chars : List Char :=
  "ABCDEFGHIJKLMNOPQRSTUVWXYZabcdefghijklmnopqrstuvwxyz0123456789+/".data

/-- The base64 digit for a 6-bit value. -/
def b64Char (n : Nat) : Char := base64Chars.getD n 'A'

/-- Standard base64 encoding of a byte sequence with `=` padding, as
`base64.b64encode` produces. -/
def base64Encode : List Nat → List Char
  | [] => []
  | [a] => [b64Char (a / 4 % 64), b64Char (a % 4 * 16), '=', '=']
  | [a, b] => [b64Char (a / 4 % 64), b64Char (a % 4 * 16 + b / 16),
               b64Char (b % 16 * 4), '=']
  | a :: b :: c :: rest =>
      b64Char (a / 4 % 64) :: b64Char (a % 4 * 16 + b / 16) ::
      b64Char (b % 16 * 4 + c / 64) :: b64Char (c % 64) :: base64Encode rest

/-- Base64 of a byte sequence as a string (`.decode("ascii")`). -/
def base64String (bs : ByteSeq) : String := ⟨base64Encode bs⟩

/-! ### The PIL image codec, modelled from the spec

`ensure_png` (main.py:39-46) calls into PIL, an external library that is
not part of this repository, so the codec is modelled from the spec:
an image is a bitmap with a mode (channel layout), a width, a height and
a flat pixel byte list; decoding recognises a container by its magic
bytes; encoding always writes the standard bitmap format (PNG); and
`convert("RGBA")` rewrites the pixels to four channels per sample. -/

/-- Modelled from the spec: a PIL in-memory bitmap (spec §3
`NormalizedImage`, glossary "Normalization"): mode (channel layout),
dimensions, and a flat list of pixel bytes. -/
structure PILImage where
  mode : String
  width : Nat
  height : Nat
  pixels : List Nat
  deriving DecidableEq, Repr

/-- Bytes per pixel of a mode. -/
def channelsOfMode : String → Nat
  | "L" => 1
  | "RGB" => 3
  | "RGBA" => 4
  | _ => 0

/-- The mode stored under a numeric tag in the modelled PNG container. -/
def modeOfCode : Nat → Option String
  | 1 => some "L"
  | 3 => some "RGB"
  | 4 => some "RGBA"
  | _ => none

/-- The numeric tag of a mode in the modelled PNG container. -/
def modeCode : String → Nat
  | "L" => 1
  | "RGB" => 3
  | "RGBA" => 4
  | _ => 0

/-- Modelled from the spec: decoding "the bytes as an image in any common
container format" (spec §4.1 step 3).  Two containers are modelled: the
standard bitmap format (PNG: magic `137 80 78 71`, then a mode tag, the
dimensions and the pixel bytes) and a second common container (BMP: magic
`66 77`, then the dimensions and RGB pixel bytes).  An `Except.error`
models the exception `Image.open` raises on undecodable input. -/
def decodeImage (data : ByteSeq) : Except String PILImage :=
  match data with
  | 137 :: 80 :: 78 :: 71 :: m :: w :: h :: px =>
      match modeOfCode m with
      | some mode =>
          if px.length = w * h * channelsOfMode mode then .ok ⟨mode, w, h, px⟩
          else .error "broken data stream when reading image file"
      | none => .error "cannot identify image file"
  | 66 :: 77 :: w :: h :: px =>
      if px.length = w * h * 3 then .ok ⟨"RGB", w, h, px⟩
      else .error "broken data stream when reading image file"
  | _ => .error "cannot identify image file"

/-- Expand 3-channel pixel bytes to 4 channels with opaque alpha. -/
def expandRGB : List Nat → List Nat
  | r :: g :: b :: rest => r :: g :: b :: 255 :: expandRGB rest
  | l => l

/-- Expand 1-channel pixel bytes to 4 channels with opaque alpha. -/
def expandL : List Nat → List Nat
  | v :: rest => v :: v :: v :: 255 :: expandL rest
  | [] => []

/-- Modelled from the spec: `im.convert("RGBA")` (main.py:43) — rewrite the
bitmap into the four-channel RGBA layout, keeping its dimensions. -/
def toRGBA (im : PILImage) : PILImage :=
  if im.mode = "RGBA" then im
  else if im.mode = "RGB" then ⟨"RGBA", im.width, im.height, expandRGB im.pixels⟩
  else if im.mode = "L" then ⟨"RGBA", im.width, im.height, expandL im.pixels⟩
  else im

/-- Modelled from the spec: `im.save(out, format="PNG")` (main.py:43) —
serialise the bitmap in the standard container: PNG magic, mode tag,
dimensions, pixel bytes. -/
def encodePNG (im : PILImage) : ByteSeq :=
  137 :: 80 :: 78 :: 71 :: modeCode im.mode :: im.width :: im.height :: im.pixels

/-- `ensure_png` (main.py:39-46): decode the bytes, convert to RGBA and
re-encode as PNG; on any decode failure the `except` clause returns the
original bytes unchanged. -/
def ensure_png (data : ByteSeq) : ByteSeq :=
  match decodeImage data with
  | .ok im => encodePNG (toRGBA im)
  | .error _ => data

/-! ### The handlers -/

/-- Python truthiness of an optional string: `bool(x)` is `False` for
`None` and for the empty string. -/
def pyTruthy : Option String → Bool
  | none => false
  | some s => !s.isEmpty

/-- Module-level startup (main.py:22-28): if the credential is absent or
empty, `RuntimeError` is raised and caught, leaving `client = None`;
otherwise `OpenAI(api_key=...)` is attempted, and a constructor exception
(modelled by the `construct` parameter returning `.error`) also leaves
`client = None`. -/
def initClient (apiKey : Option String)
    (construct : String → Except String OpenAIClient) : Option OpenAIClient :=
  match apiKey with
  | none => none
  | some k =>
      if k.isEmpty then none
      else
        match construct k with
        | .ok c => some c
        | .error _ => none

/-- `GET /ping` (main.py:30-32): `{"ok": True, "model": MODEL,
"has_api_key": bool(OPENAI_API_KEY)}`. -/
def ping (model : String) (apiKey : Option String) : HttpResponse :=
  ⟨200, .pingBody true model (pyTruthy apiKey)⟩

/-- `GET /healthz` (main.py:35-37): always `{"ok": True}`. -/
def healthz : HttpResponse := ⟨200, .healthBody true⟩

/-! ### The /review pipeline (main.py:48-95) -/

/-- The fixed instruction text of the prompt (main.py:67-69). -/
def instructionText : String :=
  "You are an art critic. Rate this drawing from 1–10 and provide three strengths and three suggestions for improvement. Be concise and kind. Return HTML with headings and bullet lists."

/-- `data_url = f"data:image/png;base64,{b64}"` (main.py:63): the MIME type
is fixed to image/png whatever `ensure_png` did. -/
def buildDataUrl (png : ByteSeq) : String :=
  "data:image/png;base64," ++ base64String png

/-- The outbound request (main.py:61-77): one user-role message holding the
fixed instruction text and the data-URL image reference for the (possibly
normalized) upload, with the configured model and temperature 0.5. -/
def buildRequest (model : String) (blob : ByteSeq) : ChatRequest :=
  { model := model
  , messages := [⟨"user", [ContentPart.text instructionText,
                           ContentPart.imageUrl (buildDataUrl (ensure_png blob))]⟩]
  , temperature := (1 : ℚ) / 2 }

/-- Reply validation (main.py:79-84): the first candidate's message content
when the candidate list is non-empty, the message is not `None` and the
content is neither `None` nor the empty string; `none` otherwise. -/
def extractHtml (resp : ChatResp) : Option String :=
  match resp.choices with
  | [] => none
  | choice :: _ =>
      match choice.message with
      | none => none
      | some msg =>
          match msg.content with
          | none => none
          | some s => if s.isEmpty then none else some s

/-- Python `str.strip()` on the character list: drop whitespace from both
ends. -/
def stripChars (l : List Char) : List Char :=
  ((l.dropWhile Char.isWhitespace).reverse.dropWhile Char.isWhitespace).reverse

/-- Python `str.strip()`. -/
def pyStrip (s : String) : String := ⟨stripChars s.data⟩

/-- The part of the wrapping f-string before the interpolated content
(main.py:86-88). -/
def wrapHead : String :=
  "\n        <div style=\"font-family:-apple-system,Segoe UI,Roboto,Helvetica,Arial,sans-serif;line-height:1.45;font-size:14px;\">\n          "

/-- The part of the wrapping f-string after the interpolated content
(main.py:88-90). -/
def wrapTail : String := "\n        </div>\n        "

/-- `wrapped = f"""...{html}...""".strip()` (main.py:86-90). -/
def wrapHtml (html : String) : String := pyStrip (wrapHead ++ html ++ wrapTail)

/-- The opening container tag after stripping: the fixed `<div>` carrying
the inline style (font stack, line-height 1.45, font-size 14px). -/
def divOpenTag : String :=
  "<div style=\"font-family:-apple-system,Segoe UI,Roboto,Helvetica,Arial,sans-serif;line-height:1.45;font-size:14px;\">"

/-- The body of the `try` block of `review` (main.py:50-91); an
`Except.error` is an exception propagating to the top-level boundary.
The upload read and the collaborator call are the two effectful steps, so
they enter as parameters; each step mirrors one `return` of the source. -/
def reviewCore (model : String) (client : Option OpenAIClient)
    (readBlob : Except String ByteSeq)
    (collab : ChatRequest → Except String ChatResp) :
    Except String HttpResponse :=
  if client.isNone then
    .ok ⟨500, .errorBody "OpenAI client not initialized. Check OPENAI_API_KEY."⟩
  else
    match readBlob with
    | .error e => .error e
    | .ok blob =>
      if blob.isEmpty then .ok ⟨400, .errorBody "Empty image upload."⟩
      else
        match collab (buildRequest model blob) with
        | .error e => .error e
        | .ok resp =>
          match extractHtml resp with
          | none => .ok ⟨502, .errorBody "Model returned no content."⟩
          | some html => .ok ⟨200, .htmlBody (wrapHtml html)⟩

/-- `POST /review` (main.py:48-95): the `try` body with its top-level
`except` boundary, which converts any exception into a 500 response
carrying the exception's message text (main.py:93-95). -/
def review (model : String) (client : Option OpenAIClient)
    (readBlob : Except String ByteSeq)
    (collab : ChatRequest → Except String ChatResp) : HttpResponse :=
  match reviewCore model client readBlob collab with
  | .ok r => r
  | .error e => ⟨500, .errorBody e⟩

/-- The tail of the pipeline from the collaborator's outcome onward
(main.py:73-95): used to state that the handler hands exactly
`buildRequest model blob` to the collaborator. -/
def handleModelReply (result : Except String ChatResp) : HttpResponse :=
  match result with
  | .error e => ⟨500, .errorBody e⟩
  | .ok resp =>
      match extractHtml resp with
      | none => ⟨502, .errorBody "Model returned no content."⟩
      | some html => ⟨200, .htmlBody (wrapHtml html)⟩

/-- A response body is structured JSON of the service's two /review shapes:
a success `html` payload or an `error` payload. -/
def isStructured (r : HttpResponse) : Bool :=
  match r.body with
  | .htmlBody _ => true
  | .errorBody _ => true
  | _ => false

/-! ### Helper lemmas -/

/-- String concatenation concatenates the underlying character lists. -/
theorem data_append (s t : String) : (s ++ t).data = s.data ++ t.data := rfl

/-- Stripping the head of the wrapping template leaves the opening tag. -/
theorem dropWhile_wrapHead : wrapHead.data.dropWhile Char.isWhitespace
    = (divOpenTag ++ "\n          ").data := by decide

/-- Stripping the reversed tail of the wrapping template leaves the closing
tag. -/
theorem dropWhile_wrapTail_rev : wrapTail.data.reverse.dropWhile Char.isWhitespace
    = ("\n        </div>").data.reverse := by decide

/-- The `.strip()` of the wrapping f-string: the wrapped value is exactly
the opening styled tag, the indented content, and the closing tag, for
every interpolated content string. -/
theorem wrapHtml_eq (html : String) :
    wrapHtml html = divOpenTag ++ "\n          " ++ html ++ "\n        </div>" := by
  have hhead : (wrapHead.data.dropWhile Char.isWhitespace).isEmpty = false := by decide
  have htail : ((wrapTail.data.reverse).dropWhile Char.isWhitespace).isEmpty = false := by
    decide
  apply String.ext
  show stripChars (wrapHead ++ html ++ wrapTail).data = _
  rw [data_append, data_append]
  unfold stripChars
  rw [List.append_assoc, List.dropWhile_append, hhead]
  simp only [if_false, Bool.false_eq_true]
  rw [List.reverse_append, List.reverse_append, List.append_assoc,
    List.dropWhile_append, htail]
  simp only [if_false, Bool.false_eq_true]
  rw [dropWhile_wrapHead, dropWhile_wrapTail_rev]
  simp [data_append, List.append_assoc]

/-- A non-empty list is not `isEmpty`. -/
theorem isEmpty_false_of_ne_nil {α : Type} {l : List α} (h : l ≠ []) :
    l.isEmpty = false := by
  cases l with
  | nil => exact absurd rfl h
  | cons a t => rfl

/-- Expanding 1-channel pixels to RGBA quadruples the byte count. -/
theorem expandL_length (l : List Nat) : (expandL l).length = 4 * l.length := by
  induction l with
  | nil => rfl
  | cons v rest ih => simp [expandL, ih]; omega

/-- Expanding 3-channel pixels to RGBA turns `3 * k` bytes into `4 * k`. -/
theorem expandRGB_length : ∀ (k : Nat) (l : List Nat),
    l.length = 3 * k → (expandRGB l).length = 4 * k := by
  intro k
  induction k with
  | zero =>
    intro l hl
    have : l = [] := List.eq_nil_of_length_eq_zero (by omega)
    subst this; rfl
  | succ n ih =>
    intro l hl
    cases l with
    | nil => simp at hl
    | cons r t =>
      cases t with
      | nil => simp at hl; omega
      | cons g t2 =>
        cases t2 with
        | nil => simp at hl; omega
        | cons b rest =>
          have hr : rest.length = 3 * n := by
            simp [List.length_cons] at hl; omega
          simp [expandRGB, ih rest hr]
          omega

/-- A successful decode yields a bitmap whose mode is one of the modelled
channel layouts and whose pixel count matches its dimensions. -/
theorem decodeImage_ok_inv {data : ByteSeq} {im : PILImage}
    (h : decodeImage data = .ok im) :
    (im.mode = "L" ∨ im.mode = "RGB" ∨ im.mode = "RGBA")
    ∧ im.pixels.length = im.width * im.height * channelsOfMode im.mode := by
  unfold decodeImage at h
  split at h
  · rename_i m w hh px
    split at h
    · rename_i mode heq
      split at h
      · rename_i hlen
        injection h with h
        subst h
        refine ⟨?_, hlen⟩
        unfold modeOfCode at heq
        split at heq <;> first
          | (injection heq with heq; subst heq; simp)
          | exact absurd heq (by simp)
      · exact absurd h (by simp)
    · exact absurd h (by simp)
  · rename_i w hh px
    split at h
    · rename_i hlen
      injection h with h
      subst h
      exact ⟨Or.inr (Or.inl rfl), by simpa [channelsOfMode] using hlen⟩
    · exact absurd h (by simp)
  · exact absurd h (by simp)

/-- Converting a well-formed decoded bitmap to RGBA fixes the mode, keeps
the dimensions, and gives four bytes per pixel. -/
theorem toRGBA_spec {im : PILImage}
    (hm : im.mode = "L" ∨ im.mode = "RGB" ∨ im.mode = "RGBA")
    (hl : im.pixels.length = im.width * im.height * channelsOfMode im.mode) :
    (toRGBA im).mode = "RGBA" ∧ (toRGBA im).width = im.width
    ∧ (toRGBA im).height = im.height
    ∧ (toRGBA im).pixels.length = im.width * im.height * 4 := by
  obtain ⟨mode, w, h, px⟩ := im
  simp only at hm hl
  rcases hm with hm | hm | hm <;> subst hm <;>
    simp [toRGBA, channelsOfMode] at hl ⊢
  · rw [expandL_length, hl]; ring
  · rw [expandRGB_length (w * h) px (by omega)]; ring
  · exact hl

/-- Converting an RGBA bitmap to RGBA is the identity. -/
theorem toRGBA_of_rgba {im : PILImage} (hm : im.mode = "RGBA") :
    toRGBA im = im := by
  simp [toRGBA, hm]

/-- Round trip: re-decoding a well-formed RGBA bitmap serialised as PNG
recovers it. -/
theorem decodeImage_encodePNG {im : PILImage} (hm : im.mode = "RGBA")
    (hl : im.pixels.length = im.width * im.height * 4) :
    decodeImage (encodePNG im) = .ok im := by
  obtain ⟨mode, w, h, px⟩ := im
  simp only at hm hl
  subst hm
  simp [encodePNG, modeCode, decodeImage, modeOfCode, channelsOfMode, hl]

/-- `extractHtml` yields the first candidate's content when the reply is
well-formed with non-empty content. -/
theorem extractHtml_some {resp : ChatResp} {choice : Choice}
    {rest : List Choice} {msg : ChatMessageOut} {content : String}
    (hch : resp.choices = choice :: rest) (hm : choice.message = some msg)
    (hct : msg.content = some content) (hne : content ≠ "") :
    extractHtml resp = some content := by
  have hce : content.isEmpty = false := by
    cases hc : content.isEmpty
    · rfl
    · exact absurd ((String.isEmpty_iff content).mp hc) hne
  simp [extractHtml, hch, hm, hct, hce]

/-- Whatever `reviewCore` returns normally is one of the two structured
/review body shapes. -/
theorem reviewCore_ok_structured {model : String} {client : Option OpenAIClient}
    {readBlob : Except String ByteSeq}
    {collab : ChatRequest → Except String ChatResp} {r : HttpResponse}
    (h : reviewCore model client readBlob collab = .ok r) :
    isStructured r = true := by
  unfold reviewCore at h
  split at h
  · injection h with h; subst h; rfl
  · split at h
    · exact absurd h (by simp)
    · split at h
      · injection h with h; subst h; rfl
      · split at h
        · exact absurd h (by simp)
        · split at h
          · injection h with h; subst h; rfl
          · injection h with h; subst h; rfl

/-! ### The claims -/

/-- Claim C1: for every non-empty uploaded byte sequence, if the
external-model client is initialized and the collaborator's reply has a
first candidate whose message content is a non-empty string, the /review
handler returns status 200 and the value under `html` is that content
wrapped inside the fixed `<div>` container carrying the inline style
(font stack, line-height 1.45, font-size 14px) — in particular the content
occurs in it as a substring. -/
theorem c1_success_wraps_content (model : String) (cl : OpenAIClient)
    (blob : ByteSeq) (collab : ChatRequest → Except String ChatResp)
    (resp : ChatResp) (choice : Choice) (rest : List Choice)
    (msg : ChatMessageOut) (content : String)
    (hb : blob ≠ [])
    (hc : collab (buildRequest model blob) = .ok resp)
    (hch : resp.choices = choice :: rest)
    (hm : choice.message = some msg)
    (hct : msg.content = some content)
    (hne : content ≠ "") :
    review model (some cl) (.ok blob) collab
      = ⟨200, .htmlBody (divOpenTag ++ "\n          " ++ content ++ "\n        </div>")⟩
    ∧ content.data <:+:
        (divOpenTag ++ "\n          " ++ content ++ "\n        </div>").data := by
  have hext := extractHtml_some hch hm hct hne
  have hbe := isEmpty_false_of_ne_nil hb
  constructor
  · simp [review, reviewCore, hbe, hc, hext, wrapHtml_eq]
  · exact ⟨(divOpenTag ++ "\n          ").data, ("\n        </div>").data,
      by simp [data_append, List.append_assoc]⟩

/-- Witness for C1 at a concrete upload, client and collaborator reply. -/
theorem c1_witness :
    ([1] : ByteSeq) ≠ []
    ∧ ("Nice" : String) ≠ ""
    ∧ review "gpt-4o-mini" (some ⟨"key"⟩) (.ok [1])
        (fun _ => .ok ⟨[⟨some ⟨some "Nice"⟩⟩]⟩)
      = ⟨200, .htmlBody (divOpenTag ++ "\n          " ++ "Nice" ++ "\n        </div>")⟩
    ∧ ("Nice" : String).data <:+:
        (divOpenTag ++ "\n          " ++ "Nice" ++ "\n        </div>").data := by
  have h := c1_success_wraps_content "gpt-4o-mini" ⟨"key"⟩ [1]
      (fun _ => .ok ⟨[⟨some ⟨some "Nice"⟩⟩]⟩) ⟨[⟨some ⟨some "Nice"⟩⟩]⟩
      ⟨some ⟨some "Nice"⟩⟩ [] ⟨some "Nice"⟩ "Nice"
      (by decide) rfl rfl rfl rfl (by decide)
  exact ⟨by decide, by decide, h.1, h.2⟩

/-- Counterexample to claim C2 as stated: an empty upload does NOT yield
status 400 "regardless of whether the client is initialized" — with the
client uninitialized the handler returns the 500 not-initialized response,
because the client check precedes the empty-upload check. -/
theorem c2_counterexample :
    review "gpt-4o-mini" (none : Option OpenAIClient) (.ok ([] : ByteSeq))
        (fun _ => .ok ⟨[]⟩)
      = ⟨500, .errorBody "OpenAI client not initialized. Check OPENAI_API_KEY."⟩
    ∧ (review "gpt-4o-mini" (none : Option OpenAIClient) (.ok ([] : ByteSeq))
        (fun _ => .ok ⟨[]⟩)).status ≠ 400 :=
  ⟨rfl, by decide⟩

/-- Claim C2 (amended): for every request whose uploaded body is the empty
byte sequence, if the external-model client is initialized the response
has status 400 with the "empty upload" error; when the client is not
initialized the 500 precondition response takes precedence. -/
theorem c2_empty_upload_amended (model : String) (cl : OpenAIClient)
    (collab : ChatRequest → Except String ChatResp) :
    review model (some cl) (.ok ([] : ByteSeq)) collab
      = ⟨400, .errorBody "Empty image upload."⟩ := rfl

/-- Claim C3: with the client uninitialized, /review returns the 500
not-initialized response for every input — including a read of the upload
that would itself fail (`readBlob` is universally quantified over both
outcomes), which formalises that the check happens before the upload body
is read. -/
theorem c3_uninitialized_client_500 (model : String)
    (readBlob : Except String ByteSeq)
    (collab : ChatRequest → Except String ChatResp) :
    review model none readBlob collab
      = ⟨500, .errorBody "OpenAI client not initialized. Check OPENAI_API_KEY."⟩ := rfl

/-- Claim C4: any exception raised inside the handler body (modelled as an
`Except.error` outcome of `reviewCore`) is converted at the top-level
boundary into a status-500 response whose `error` field is the exception's
message text, and every code path of the handler returns one of the two
structured JSON body shapes. -/
theorem c4_top_level_boundary (model : String) (client : Option OpenAIClient)
    (readBlob : Except String ByteSeq)
    (collab : ChatRequest → Except String ChatResp) :
    (∀ e, reviewCore model client readBlob collab = .error e →
        review model client readBlob collab = ⟨500, .errorBody e⟩)
    ∧ isStructured (review model client readBlob collab) = true := by
  constructor
  · intro e h
    simp [review, h]
  · unfold review
    cases hr : reviewCore model client readBlob collab with
    | error e => rfl
    | ok r => exact reviewCore_ok_structured hr

/-- Witness for C4: a failing upload read surfaces as a 500 with the
exception's message. -/
theorem c4_witness :
    reviewCore "gpt-4o-mini" (some ⟨"key"⟩) (.error "boom")
        (fun _ => .ok ⟨[]⟩) = .error "boom"
    ∧ review "gpt-4o-mini" (some ⟨"key"⟩) (.error "boom") (fun _ => .ok ⟨[]⟩)
        = ⟨500, .errorBody "boom"⟩
    ∧ isStructured (review "gpt-4o-mini" (some ⟨"key"⟩) (.error "boom")
        (fun _ => .ok ⟨[]⟩)) = true := by
  have h := c4_top_level_boundary "gpt-4o-mini" (some ⟨"key"⟩) (.error "boom")
      (fun _ => .ok ⟨[]⟩)
  exact ⟨rfl, h.1 "boom" rfl, h.2⟩

/-- Claim C5: for every request reaching the collaborator call, if the
reply has zero candidates, or its first candidate's message is absent, or
the content is absent or the empty string, the response is status 502 with
the "model returned no content" error. -/
theorem c5_no_content_502 (model : String) (cl : OpenAIClient) (blob : ByteSeq)
    (collab : ChatRequest → Except String ChatResp) (resp : ChatResp)
    (hb : blob ≠ [])
    (hc : collab (buildRequest model blob) = .ok resp)
    (hx : resp.choices = []
      ∨ ∃ choice rest, resp.choices = choice :: rest
        ∧ (choice.message = none
          ∨ ∃ msg, choice.message = some msg
            ∧ (msg.content = none ∨ msg.content = some ""))) :
    review model (some cl) (.ok blob) collab
      = ⟨502, .errorBody "Model returned no content."⟩ := by
  have hext : extractHtml resp = none := by
    rcases hx with h | ⟨choice, rest, hcr, h⟩
    · simp [extractHtml, h]
    · rcases h with h | ⟨msg, hmsg, h⟩
      · simp [extractHtml, hcr, h]
      · rcases h with h | h
        · simp [extractHtml, hcr, hmsg, h]
        · simp [extractHtml, hcr, hmsg, h]
          decide
  have hbe := isEmpty_false_of_ne_nil hb
  simp [review, reviewCore, hbe, hc, hext]

/-- Witness for C5 with a zero-candidate reply. -/
theorem c5_witness :
    ([1] : ByteSeq) ≠ []
    ∧ review "gpt-4o-mini" (some ⟨"key"⟩) (.ok [1]) (fun _ => .ok ⟨[]⟩)
        = ⟨502, .errorBody "Model returned no content."⟩ :=
  ⟨by decide, c5_no_content_502 "gpt-4o-mini" ⟨"key"⟩ [1] (fun _ => .ok ⟨[]⟩)
      ⟨[]⟩ (by decide) rfl (Or.inl rfl)⟩

/-- Claim C6: for every byte sequence whose decode fails, `ensure_png`
returns exactly the original bytes, and for every input the step returns
normally (either the fallback bytes or the re-encoded bitmap) — no
exception escapes it. -/
theorem c6_decode_failure_identity (data : ByteSeq) :
    (∀ e, decodeImage data = .error e → ensure_png data = data)
    ∧ (ensure_png data = data
      ∨ ∃ im, decodeImage data = .ok im
          ∧ ensure_png data = encodePNG (toRGBA im)) := by
  constructor
  · intro e h
    simp [ensure_png, h]
  · cases h : decodeImage data with
    | error e => exact Or.inl (by simp [ensure_png, h])
    | ok im => exact Or.inr ⟨im, rfl, by simp [ensure_png, h]⟩

/-- Witness for C6 on undecodable bytes. -/
theorem c6_witness :
    decodeImage [0] = .error "cannot identify image file"
    ∧ ensure_png ([0] : ByteSeq) = [0] :=
  ⟨rfl, (c6_decode_failure_identity [0]).1 "cannot identify image file" rfl⟩

/-- Claim C7: normalization is format-converting and idempotent — for
every byte sequence decoding to a bitmap, `ensure_png` yields bytes that
decode to the RGBA conversion of that bitmap (an RGBA PNG of the same
dimensions), and running `ensure_png` again changes nothing. -/
theorem c7_format_converting (data : ByteSeq) (im : PILImage)
    (h : decodeImage data = .ok im) :
    decodeImage (ensure_png data) = .ok (toRGBA im)
    ∧ (toRGBA im).mode = "RGBA"
    ∧ (toRGBA im).width = im.width ∧ (toRGBA im).height = im.height
    ∧ ensure_png (ensure_png data) = ensure_png data := by
  obtain ⟨hm, hl⟩ := decodeImage_ok_inv h
  obtain ⟨hmode, hw, hh, hlen⟩ := toRGBA_spec hm hl
  have he : ensure_png data = encodePNG (toRGBA im) := by
    simp [ensure_png, h]
  have hd : decodeImage (encodePNG (toRGBA im)) = .ok (toRGBA im) :=
    decodeImage_encodePNG hmode (by rw [hlen, hw, hh])
  refine ⟨by rw [he]; exact hd, hmode, hw, hh, ?_⟩
  rw [he]
  simp [ensure_png, hd, toRGBA_of_rgba hmode]

/-- Witness for C7 on a concrete one-pixel RGBA PNG. -/
theorem c7_witness :
    decodeImage [137, 80, 78, 71, 4, 1, 1, 9, 9, 9, 9]
      = .ok ⟨"RGBA", 1, 1, [9, 9, 9, 9]⟩
    ∧ (decodeImage (ensure_png [137, 80, 78, 71, 4, 1, 1, 9, 9, 9, 9])
        = .ok (toRGBA ⟨"RGBA", 1, 1, [9, 9, 9, 9]⟩)
      ∧ (toRGBA (⟨"RGBA", 1, 1, [9, 9, 9, 9]⟩ : PILImage)).mode = "RGBA"
      ∧ (toRGBA (⟨"RGBA", 1, 1, [9, 9, 9, 9]⟩ : PILImage)).width = 1
      ∧ (toRGBA (⟨"RGBA", 1, 1, [9, 9, 9, 9]⟩ : PILImage)).height = 1
      ∧ ensure_png (ensure_png [137, 80, 78, 71, 4, 1, 1, 9, 9, 9, 9])
          = ensure_png [137, 80, 78, 71, 4, 1, 1, 9, 9, 9, 9]) :=
  ⟨rfl, c7_format_converting _ _ rfl⟩

/-- Claim C8: every request reaching the transport-encoding step hands the
collaborator exactly the request built from the upload, whose image
reference is the base64 of the (possibly normalized) bytes inside a data
URI with MIME type fixed to image/png. -/
theorem c8_transport_encoding (model : String) (cl : OpenAIClient)
    (blob : ByteSeq) (collab : ChatRequest → Except String ChatResp)
    (hb : blob ≠ []) :
    review model (some cl) (.ok blob) collab
      = handleModelReply (collab (buildRequest model blob))
    ∧ buildDataUrl (ensure_png blob)
      = "data:image/png;base64," ++ base64String (ensure_png blob)
    ∧ (buildRequest model blob).messages
      = [⟨"user", [ContentPart.text instructionText,
          ContentPart.imageUrl
            ("data:image/png;base64," ++ base64String (ensure_png blob))]⟩] := by
  have hbe := isEmpty_false_of_ne_nil hb
  refine ⟨?_, rfl, rfl⟩
  cases hcb : collab (buildRequest model blob) with
  | error e => simp [review, reviewCore, hbe, hcb, handleModelReply]
  | ok resp =>
    cases hx : extractHtml resp with
    | none => simp [review, reviewCore, hbe, hcb, handleModelReply, hx]
    | some html => simp [review, reviewCore, hbe, hcb, handleModelReply, hx]

/-- Witness for C8 on a concrete non-image upload. -/
theorem c8_witness :
    ([1] : ByteSeq) ≠ []
    ∧ review "gpt-4o-mini" (some ⟨"key"⟩) (.ok [1]) (fun _ => .ok ⟨[]⟩)
        = handleModelReply
            ((fun _ => Except.ok (⟨[]⟩ : ChatResp)) (buildRequest "gpt-4o-mini" [1]))
    ∧ buildDataUrl (ensure_png [1])
        = "data:image/png;base64," ++ base64String (ensure_png [1])
    ∧ (buildRequest "gpt-4o-mini" [1]).messages
        = [⟨"user", [ContentPart.text instructionText,
            ContentPart.imageUrl
              ("data:image/png;base64," ++ base64String (ensure_png [1]))]⟩] := by
  have h := c8_transport_encoding "gpt-4o-mini" ⟨"key"⟩ [1] (fun _ => .ok ⟨[]⟩)
      (by decide)
  exact ⟨by decide, h.1, h.2.1, h.2.2⟩

/-- Claim C9: /ping returns the fixed ok flag, the configured model
identifier and only the presence bit of the credential: any two distinct
non-empty credential values produce identical /ping responses, so the
credential value itself never flows into the response. -/
theorem c9_ping_noninterference (model k₁ k₂ : String)
    (h₁ : k₁ ≠ "") (h₂ : k₂ ≠ "") (hne : k₁ ≠ k₂) :
    ping model (some k₁) = ping model (some k₂)
    ∧ ping model (some k₁) = ⟨200, .pingBody true model true⟩ := by
  have e₁ : k₁.isEmpty = false := by
    cases hc : k₁.isEmpty
    · rfl
    · exact absurd ((String.isEmpty_iff k₁).mp hc) h₁
  have e₂ : k₂.isEmpty = false := by
    cases hc : k₂.isEmpty
    · rfl
    · exact absurd ((String.isEmpty_iff k₂).mp hc) h₂
  constructor <;> simp [ping, pyTruthy, e₁, e₂]

/-- Witness for C9 on two concrete distinct credentials. -/
theorem c9_witness :
    ("a" : String) ≠ "" ∧ ("b" : String) ≠ "" ∧ ("a" : String) ≠ "b"
    ∧ ping "gpt-4o-mini" (some "a") = ping "gpt-4o-mini" (some "b")
    ∧ ping "gpt-4o-mini" (some "a") = ⟨200, .pingBody true "gpt-4o-mini" true⟩ := by
  have h := c9_ping_noninterference "gpt-4o-mini" "a" "b"
      (by decide) (by decide) (by decide)
  exact ⟨by decide, by decide, by decide, h.1, h.2⟩

/-- Claim C10: if startup produced an initialized client then /ping reports
`has_api_key` true; the converse fails, since client construction can
raise even when the credential is present, leaving the client `None` while
/ping still reports true. -/
theorem c10_client_implies_has_key :
    (∀ (model : String) (key : Option String)
        (construct : String → Except String OpenAIClient) (c : OpenAIClient),
      initClient key construct = some c →
      ping model key = ⟨200, .pingBody true model true⟩)
    ∧ ∃ (key : Option String) (construct : String → Except String OpenAIClient),
        pyTruthy key = true ∧ initClient key construct = none := by
  constructor
  · intro model key construct c h
    match key with
    | none => simp [initClient] at h
    | some k =>
      cases hk : k.isEmpty with
      | true => simp [initClient, hk] at h
      | false => simp [ping, pyTruthy, hk]
  · refine ⟨some "key", fun _ => .error "construction failed", by decide, ?_⟩
    simp [initClient]

/-- Witness for C10 with a concrete credential and constructor. -/
theorem c10_witness :
    initClient (some "key") (fun s => .ok ⟨s⟩) = some ⟨"key"⟩
    ∧ ping "gpt-4o-mini" (some "key")
        = ⟨200, .pingBody true "gpt-4o-mini" true⟩ :=
  ⟨rfl, c10_client_implies_has_key.1 "gpt-4o-mini" (some "key")
      (fun s => .ok ⟨s⟩) ⟨"key"⟩ rfl⟩

end ReviewService
